import Mathlib

/-
Verification development for the PICASO tutorial notebook
`docs/notebooks/9g_ReflectedPhaseCurve.ipynb` (reflected-light phase curves
for a 3D GCM atmosphere, cloud-free and cloudy cases).

The notebook is a linear orchestration script.  We shallowly embed the
notebook's own logic:

* the numeric array constructions it performs itself (the synthetic
  chemistry arrays, the box-shaped cloud optical-depth array, the phase and
  wavenumber grids built with `np.linspace`), modelled over exact rationals;
* the sequence of external-library calls it issues, as a concrete trace of
  events (one per call, in source order, cell numbers recorded in comments);
* its statement structure, as a small straight-line-program AST, to settle
  the error-handling and concurrency claims;
* the two dataset-manipulation steps whose meaning comes from the external
  libraries (xarray's in-place `Dataset.update`, and the shape of the
  dictionary returned by `phase_curve`), modelled from their documented
  behaviour / the spec's words, as flagged in the doc comments.

Phase angles are represented exactly as rational coefficients of pi: the
notebook's grid `np.linspace(0, 2*np.pi, 8)` is the list of reals
`q * pi` for `q` in `linspace 0 2 8`, and the degree conversion
`iphase*180/np.pi` becomes `q * 180`.
-/

/-- `np.linspace start stop num`: `num` evenly spaced samples from `start`
to `stop`, endpoints included (the numpy default), over exact rationals. -/
def linspace (start stop : ℚ) (num : ℕ) : List ℚ :=
  (List.range num).map (fun i => start + (stop - start) * i / ((num : ℚ) - 1))

/- Cells 9 and 28: both cases build the same phase grid.
`n_phases = 8`, `min_phase = 0`, `max_phase = 2*np.pi`,
`phase_grid = np.linspace(min_phase, max_phase, n_phases)`.
Angles are stored as coefficients of pi, so `2` stands for `2*np.pi`. -/

def n_phases : ℕ := 8

def min_phase : ℚ := 0

def max_phase : ℚ := 2

/-- Cell 9: `phase_grid` for `case_3d` (coefficients of pi). -/
def phase_grid_case3d : List ℚ := linspace min_phase max_phase n_phases

/-- Cell 28: `phase_grid` for `case_3d_clouds` (coefficients of pi). -/
def phase_grid_case3d_clouds : List ℚ := linspace min_phase max_phase n_phases

/-- Argument record of a `phase_curve_geometry` call. -/
structure GeometryCall where
  calculation : String
  phase_grid : List ℚ
  num_gangle : ℕ
  num_tangle : ℕ
deriving DecidableEq

/-- Cell 9: `case_3d.phase_curve_geometry('reflected', phase_grid=phase_grid,
num_gangle=6, num_tangle=6)`. -/
def geometry_call_case3d : GeometryCall :=
  { calculation := "reflected", phase_grid := phase_grid_case3d,
    num_gangle := 6, num_tangle := 6 }

/-- Cell 28: `case_3d_clouds.phase_curve_geometry('reflected',
phase_grid=phase_grid, num_gangle=6, num_tangle=6)`. -/
def geometry_call_case3d_clouds : GeometryCall :=
  { calculation := "reflected", phase_grid := phase_grid_case3d_clouds,
    num_gangle := 6, num_tangle := 6 }

/-- Coordinate grid of the cloud dataset `ds_cld` (cell 24). -/
structure CldCoords where
  lon : List ℚ
  lat : List ℚ
  pressure : List ℚ
  wno : List ℚ
deriving DecidableEq

/-- Cell 24: the coordinates of `ds_cld` are the GCM's `lon` and `lat`, the
GCM's `pressure` without its last entry (`pres[:-1]`), and
`wno_grid = np.linspace(33333, 1e4, 10)`. -/
def ds_cld_coords (gcmLon gcmLat gcmPres : List ℚ) : CldCoords :=
  { lon := gcmLon, lat := gcmLat, pressure := gcmPres.dropLast,
    wno := linspace 33333 10000 10 }

/- Cell 6: synthetic chemistry.
`fake_chem_H2O = np.random.rand(len(lon), len(lat), len(pres))*0.1 + 0.1`
`fake_chem_H2 = 1 - fake_chem_H2O`
The random draw is abstracted as a function `r` on grid indices; numpy's
`random.rand` guarantees `0 <= r < 1` at every point. -/

/-- Cell 6: `fake_chem_H2O = np.random.rand(...)*0.1 + 0.1`. -/
def fake_chem_H2O (r : ℕ → ℕ → ℕ → ℚ) (i j k : ℕ) : ℚ :=
  r i j k * (1 / 10) + 1 / 10

/-- Cell 6: `fake_chem_H2 = 1 - fake_chem_H2O`. -/
def fake_chem_H2 (r : ℕ → ℕ → ℕ → ℚ) (i j k : ℕ) : ℚ :=
  1 - fake_chem_H2O r i j k

/- Cell 24: the box-shaped cloud.  The array `fake_opd` has shape
(len lon, len lat, len pres, len wno_grid); it starts as `np.zeros` and the
triple loop over `np.where` index sets writes 10 into every wavenumber slot
of the selected (lon, lat, pressure) cells:

    where_lat  = np.where(((lat > -50) & (lat < 50)))
    where_lon  = np.where(((lon > -90) & (lon < 0)))
    where_pres = np.where(((pres < 0.01) & (pres > .00001)))
    for il in where_lat[0]:
        for ilon in where_lon[0]:
            for ip in where_pres[0]:
                fake_opd[ilon, il, ip, :] = 10

A 4-D array is modelled as a total function on indices. -/

/-- A 4-D array over indices (lon index, lat index, pressure index,
wavenumber index). -/
abbrev Arr4 : Type := ℕ → ℕ → ℕ → ℕ → ℚ

/-- `np.where` on a coordinate vector: the list of indices whose coordinate
value satisfies the mask. -/
def whereIdx (p : ℚ → Bool) (xs : List ℚ) : List ℕ :=
  (List.range xs.length).filter (fun i => p (xs.getD i 0))

/-- Cell 24 mask `(lat > -50) & (lat < 50)`. -/
def cloudLatBand (x : ℚ) : Bool := (-50 < x) && (x < 50)

/-- Cell 24 mask `(lon > -90) & (lon < 0)`. -/
def cloudLonBand (x : ℚ) : Bool := (-90 < x) && (x < 0)

/-- Cell 24 mask `(pres < 0.01) & (pres > .00001)`. -/
def cloudPresBand (x : ℚ) : Bool := (x < 1 / 100) && (1 / 100000 < x)

/-- One loop-body step `fake_opd[ilon, il, ip, :] = 10`. -/
def setOpdSlice (a : Arr4) (ilon il ip : ℕ) : Arr4 :=
  fun i j k w => if i = ilon ∧ j = il ∧ k = ip then 10 else a i j k w

/-- Cell 24: the array `fake_opd` after the triple loop, starting from
`np.zeros`. -/
def fake_opd (lon lat pres : List ℚ) : Arr4 :=
  (whereIdx cloudLatBand lat).foldl
    (fun acc il =>
      (whereIdx cloudLonBand lon).foldl
        (fun acc2 ilon =>
          (whereIdx cloudPresBand pres).foldl
            (fun acc3 ip => setOpdSlice acc3 ilon il ip) acc2)
        acc)
    (fun _ _ _ _ => 0)

/-- Cell 24: `fake_asymmetry_g0 = 0.5 + np.zeros(...)`, i.e. 0.5 at every
grid point. -/
def fake_asymmetry_g0 (_lon _lat _pres : List ℚ) : Arr4 :=
  fun _ _ _ _ => 1 / 2

/-- Cell 24: `fake_ssa_w0 = 0.9 + np.zeros(...)`, i.e. 0.9 at every grid
point. -/
def fake_ssa_w0 (_lon _lat _pres : List ℚ) : Arr4 :=
  fun _ _ _ _ => 9 / 10

/-- A 3-D array over grid indices (lon index, lat index, pressure index). -/
abbrev Arr3 : Type := ℕ → ℕ → ℕ → ℚ

/-- An xarray dataset, reduced to what the notebook manipulates: a list of
named data variables over the 3-D grid. -/
structure Dataset where
  data_vars : List (String × Arr3)

/-- Write one variable into a dataset: overwrite in place if the name is
already present, otherwise append it. -/
def setVar (d : Dataset) (n : String) (v : Arr3) : Dataset :=
  if d.data_vars.any (fun kv => kv.1 == n) then
    { data_vars := d.data_vars.map (fun kv => if kv.1 == n then (n, v) else kv) }
  else
    { data_vars := d.data_vars ++ [(n, v)] }

/-- Modelled from the spec: the notebook delegates dataset merging to
xarray's `Dataset.update`, which is external library code.  Per xarray's
documented behaviour, `a.update(b)` writes every variable of `b` into `a`
itself (an in-place mutation) and returns `a`. -/
def updateDs (d other : Dataset) : Dataset :=
  other.data_vars.foldl (fun acc kv => setVar acc kv.1 kv.2) d

/-- Cell 6: the chemistry dataset `ds_chem`, whose data variables are the
synthetic `H2O` and `H2` arrays (`r` is the abstracted random draw). -/
def ds_chem (r : ℕ → ℕ → ℕ → ℚ) : Dataset :=
  { data_vars := [( "H2O", fake_chem_H2O r), ( "H2", fake_chem_H2 r)] }

/-- Cell 6, last statement: `all_gcm = gcm_out.update(ds_chem)`.  Because
`update` mutates the receiver and returns it, after the statement the names
`gcm_out` (first component) and `all_gcm` (second component) are bound to
the same chemistry-augmented dataset.  The cloud-free case later calls
`atmosphere_4d(all_gcm, ...)` (cell 11) and the cloudy case calls
`atmosphere_4d(gcm_out, ...)` (cell 28). -/
def chem_cell (gcm : Dataset) (r : ℕ → ℕ → ℕ → ℚ) : Dataset × Dataset :=
  let updated := updateDs gcm (ds_chem r)
  (updated, updated)

/-- Whether a dataset holds a variable of the given name. -/
def hasVar (d : Dataset) (n : String) : Bool :=
  d.data_vars.any (fun kv => kv.1 == n)

/-- One per-phase output spectrum: the fields of `allout[iphase]` the
notebook reads (cells 22 and 35). -/
structure Spectrum where
  wavenumber : List ℚ
  fpfs_reflected : List ℚ

/-- Modelled from the spec: `phase_curve` is external library code and the
spec describes its result as "a dictionary of per-phase output spectra
keyed by phase angle".  The dictionary is modelled as an association list
whose keys are the phase angles of the requested grid (coefficients of pi)
and whose values are the per-phase spectra. -/
def phase_curve_output (sp : ℚ → Spectrum) (phase_grid : List ℚ) :
    List (ℚ × Spectrum) :=
  phase_grid.map (fun iphase => (iphase, sp iphase))

/-- Python `int()`: truncation toward zero. -/
def pyInt (q : ℚ) : ℤ :=
  if q < 0 then -Rat.floor (-q) else Rat.floor q

/-- One iteration of the post-processing loop (cells 22 and 35): regrid the
spectrum of the current key, append the wavenumber grid, the scaled
spectrum (`f*1e6`) and the legend entry `int(iphase*180/np.pi)` — with the
phase stored as a coefficient of pi, `iphase*180/np.pi` is `iphase * 180`. -/
def ppStep (regrid : List ℚ → List ℚ → List ℚ × List ℚ)
    (acc : List (List ℚ) × List (List ℚ) × List ℤ) (kv : ℚ × Spectrum) :
    List (List ℚ) × List (List ℚ) × List ℤ :=
  (acc.1 ++ [(regrid kv.2.wavenumber kv.2.fpfs_reflected).1],
   acc.2.1 ++ [(regrid kv.2.wavenumber kv.2.fpfs_reflected).2.map
     (fun x => x * 1000000)],
   acc.2.2 ++ [pyInt (kv.1 * 180)])

/-- Cells 22 and 35: `for iphase in allout.keys(): ...` — the loop over
every key of the output dictionary, accumulating `wno`, `fpfs` and
`legend` (the regridding itself is the external `jdi.mean_regrid`, passed
in as a function). -/
def postProcessLoop (regrid : List ℚ → List ℚ → List ℚ × List ℚ)
    (allout : List (ℚ × Spectrum)) :
    List (List ℚ) × List (List ℚ) × List ℤ :=
  allout.foldl (ppStep regrid) ([], [], [])

/-- The two phase-curve cases of the notebook. -/
inductive Case
  | cloudFree
  | cloudy
deriving DecidableEq

/-- One external-library call of the notebook pipeline.  `inspect` stands
for the data-inspection expressions (displaying a profile, plotting an
input dataset) that read state without being pipeline calls. -/
inductive Event
  | opannection
  | loadGCM
  | buildChem
  | buildCloudDs
  | newInputs (c : Case)
  | phaseCurveGeometry (c : Case)
  | atmosphere4d (c : Case)
  | clouds4d (c : Case)
  | gravity (c : Case)
  | star (c : Case)
  | phaseCurve (c : Case)
  | postProcess (c : Case)
  | inspect
deriving DecidableEq

/-- The pipeline stage of an event, numbered as in the spec's fixed order:
load opacity (1), build/augment datasets (2), fresh inputs object and phase
geometry (3), atmosphere_4d (4), clouds_4d (5), gravity/stellar parameters
(6), phase-curve computation (7), post-process/plot (8). -/
def stageOf : Event → ℕ
  | .opannection => 1
  | .loadGCM => 2
  | .buildChem => 2
  | .buildCloudDs => 2
  | .newInputs _ => 3
  | .phaseCurveGeometry _ => 3
  | .atmosphere4d _ => 4
  | .clouds4d _ => 5
  | .gravity _ => 6
  | .star _ => 6
  | .phaseCurve _ => 7
  | .postProcess _ => 8
  | .inspect => 0

/-- Whether an event is part of the given case's pipeline: the opacity load
and the dataset builds feed both cases (the cloud dataset only the cloudy
one); calls on an inputs object belong to that object's case; inspections
are not pipeline calls. -/
def belongsTo (c : Case) : Event → Bool
  | .opannection => true
  | .loadGCM => true
  | .buildChem => true
  | .buildCloudDs => c == Case.cloudy
  | .newInputs c2 => c2 == c
  | .phaseCurveGeometry c2 => c2 == c
  | .atmosphere4d c2 => c2 == c
  | .clouds4d c2 => c2 == c
  | .gravity c2 => c2 == c
  | .star c2 => c2 == c
  | .phaseCurve c2 => c2 == c
  | .postProcess c2 => c2 == c
  | .inspect => false

/-- The notebook's pipeline calls in source order (cells noted).  Cell 1's
`jpi.output_notebook()` is plot-library initialisation, before the
pipeline; it appears in `notebookProgram` below but is not a pipeline
stage. -/
def notebookTrace : List Event :=
  [Event.opannection,                         -- cell 3
   Event.loadGCM,                             -- cell 4
   Event.buildChem,                           -- cell 6
   Event.inspect,                             -- cell 7: temperature plot
   Event.newInputs Case.cloudFree,            -- cell 9
   Event.phaseCurveGeometry Case.cloudFree,   -- cell 9
   Event.atmosphere4d Case.cloudFree,         -- cell 11
   Event.inspect,                             -- cell 13: profile display
   Event.gravity Case.cloudFree,              -- cell 15
   Event.star Case.cloudFree,                 -- cell 15
   Event.inspect,                             -- cell 17: profile display
   Event.phaseCurve Case.cloudFree,           -- cell 18
   Event.postProcess Case.cloudFree,          -- cell 20: phase-curve plot
   Event.postProcess Case.cloudFree,          -- cell 22: spectra loop
   Event.buildCloudDs,                        -- cell 24
   Event.inspect,                             -- cell 26: opd plot
   Event.newInputs Case.cloudy,               -- cell 28
   Event.phaseCurveGeometry Case.cloudy,      -- cell 28
   Event.atmosphere4d Case.cloudy,            -- cell 28
   Event.clouds4d Case.cloudy,                -- cell 28
   Event.gravity Case.cloudy,                 -- cell 30
   Event.star Case.cloudy,                    -- cell 30
   Event.phaseCurve Case.cloudy,              -- cell 30
   Event.postProcess Case.cloudFree,          -- cell 31
   Event.postProcess Case.cloudy,             -- cell 31
   Event.postProcess Case.cloudFree,          -- cell 33: comparison plot
   Event.postProcess Case.cloudy,             -- cell 33: comparison plot
   Event.postProcess Case.cloudy]             -- cell 35: spectra loop

/-- Python statements, reduced to what occurs in (or could occur in) this
script: straight-line code, calls, `for` loops, and `try/except` (the
notebook contains none of the latter, which is what C6 checks). -/
inductive Stmt
  | skip
  | seq (a b : Stmt)
  | call (f : String)
  | forEach (body : Stmt)
  | tryCatch (body handler : Stmt)
deriving DecidableEq

/-- Sequence a list of statements. -/
def seqAll (l : List Stmt) : Stmt := l.foldr Stmt.seq Stmt.skip

/-- Whether a statement contains a `try/except`. -/
def hasTry : Stmt → Bool
  | .skip => false
  | .seq a b => hasTry a || hasTry b
  | .call _ => false
  | .forEach b => hasTry b
  | .tryCatch _ _ => true

/-- All calls issued by a statement, in order. -/
def callsOf : Stmt → List String
  | .skip => []
  | .seq a b => callsOf a ++ callsOf b
  | .call f => [f]
  | .forEach b => callsOf b
  | .tryCatch b h => callsOf b ++ callsOf h

/-- Exception-propagation semantics: `ok f` says whether the call `f`
succeeds; a failing call aborts the enclosing statement, except that a
`try/except` falls back to its handler.  `runOk ok p = true` means the
program runs to completion. -/
def runOk (ok : String → Bool) : Stmt → Bool
  | .skip => true
  | .seq a b => runOk ok a && runOk ok b
  | .call _f => ok _f
  | .forEach b => runOk ok b
  | .tryCatch b h => runOk ok b || runOk ok h

/-- The notebook's statements in source order (cells noted; pure
assignments and attribute accesses carry no call and are omitted or
`skip`). -/
def notebookProgram : Stmt :=
  seqAll
    [Stmt.call "jpi.output_notebook",            -- cell 1
     Stmt.call "jdi.opannection",                -- cell 3
     Stmt.call "jdi.HJ_pt_3d",                   -- cell 4
     Stmt.call "gcm_out.coords.get",             -- cell 6
     Stmt.call "gcm_out.coords.get",             -- cell 6
     Stmt.call "gcm_out.coords.get",             -- cell 6
     Stmt.call "np.random.rand",                 -- cell 6
     Stmt.call "jdi.xr.Dataset",                 -- cell 6
     Stmt.call "gcm_out.update",                 -- cell 6
     Stmt.call "xarray.isel",                    -- cell 7
     Stmt.call "xarray.plot",                    -- cell 7
     Stmt.call "jdi.inputs",                     -- cell 9
     Stmt.call "np.linspace",                    -- cell 9
     Stmt.call "case_3d.phase_curve_geometry",   -- cell 9
     Stmt.call "np.zeros",                       -- cell 11
     Stmt.call "case_3d.atmosphere_4d",          -- cell 11
     Stmt.call "case_3d.gravity",                -- cell 15
     Stmt.call "case_3d.star",                   -- cell 15
     Stmt.call "xarray.isel",                    -- cell 17
     Stmt.call "case_3d.phase_curve",            -- cell 18
     Stmt.call "jpi.phase_curve",                -- cell 20
     Stmt.call "jpi.show",                       -- cell 20
     Stmt.forEach (Stmt.call "jdi.mean_regrid"), -- cell 22
     Stmt.call "jpi.pals.viridis",               -- cell 22
     Stmt.call "jpi.spectrum",                   -- cell 22
     Stmt.call "jpi.show",                       -- cell 22
     Stmt.call "gcm_out.coords.get",             -- cell 24
     Stmt.call "gcm_out.coords.get",             -- cell 24
     Stmt.call "gcm_out.coords.get",             -- cell 24
     Stmt.call "np.linspace",                    -- cell 24
     Stmt.call "np.zeros",                       -- cell 24
     Stmt.call "np.where",                       -- cell 24
     Stmt.call "np.where",                       -- cell 24
     Stmt.call "np.where",                       -- cell 24
     Stmt.forEach (Stmt.forEach (Stmt.forEach Stmt.skip)), -- cell 24
     Stmt.call "np.zeros",                       -- cell 24
     Stmt.call "np.zeros",                       -- cell 24
     Stmt.call "xr.Dataset",                     -- cell 24
     Stmt.call "xarray.isel",                    -- cell 26
     Stmt.call "xarray.plot",                    -- cell 26
     Stmt.call "jdi.inputs",                     -- cell 28
     Stmt.call "np.linspace",                    -- cell 28
     Stmt.call "case_3d_clouds.phase_curve_geometry", -- cell 28
     Stmt.call "np.zeros",                       -- cell 28
     Stmt.call "case_3d_clouds.atmosphere_4d",   -- cell 28
     Stmt.call "case_3d_clouds.clouds_4d",       -- cell 28
     Stmt.call "case_3d_clouds.gravity",         -- cell 30
     Stmt.call "case_3d_clouds.star",            -- cell 30
     Stmt.call "case_3d_clouds.phase_curve",     -- cell 30
     Stmt.call "jpi.phase_curve",                -- cell 31
     Stmt.call "jpi.phase_curve",                -- cell 31
     Stmt.call "plt.figure",                     -- cell 33
     Stmt.call "plt.plot",                       -- cell 33
     Stmt.call "plt.plot",                       -- cell 33
     Stmt.call "plt.xlabel",                     -- cell 33
     Stmt.call "plt.ylabel",                     -- cell 33
     Stmt.call "plt.title",                      -- cell 33
     Stmt.call "plt.legend",                     -- cell 33
     Stmt.forEach (Stmt.call "jdi.mean_regrid"), -- cell 35
     Stmt.call "jpi.pals.viridis",               -- cell 35
     Stmt.call "jpi.spectrum",                   -- cell 35
     Stmt.call "jpi.show"]                       -- cell 35

/-- The argument record of one `phase_curve` invocation. -/
structure PhaseCurveCall where
  caseId : Case
  n_cpu : ℕ
  full_output : Bool
deriving DecidableEq

/-- The two `phase_curve` invocations: cell 18
(`case_3d.phase_curve(opacity, n_cpu = 3, full_output=True)`) and cell 30
(`case_3d_clouds.phase_curve(opacity, n_cpu = 3, full_output=False)`). -/
def phase_curve_calls : List PhaseCurveCall :=
  [{ caseId := Case.cloudFree, n_cpu := 3, full_output := true },
   { caseId := Case.cloudy, n_cpu := 3, full_output := false }]

/-- Names of Python thread/process/lock/scheduling primitives; the
concurrency claim checks none of them is called. -/
def concurrency_primitives : List String :=
  [ "threading.Thread", "threading.Lock", "threading.Timer",
    "multiprocessing.Process", "multiprocessing.Pool", "os.fork",
    "concurrent.futures.ThreadPoolExecutor",
    "concurrent.futures.ProcessPoolExecutor", "asyncio.run"]

/-- Evaluation of the phase grid: `linspace 0 2 8` (coefficients of pi). -/
theorem phase_grid_case3d_eval :
    phase_grid_case3d = [0, 2 / 7, 4 / 7, 6 / 7, 8 / 7, 10 / 7, 12 / 7, 2] := by
  have hr : List.range 8 = [0, 1, 2, 3, 4, 5, 6, 7] := rfl
  norm_num [phase_grid_case3d, linspace, n_phases, min_phase, max_phase, hr]

/-- Evaluation of the cloud wavenumber grid `np.linspace(33333, 1e4, 10)`. -/
theorem wno_grid_eval :
    linspace 33333 10000 10
      = [33333, 276664 / 9, 253331 / 9, 229998 / 9, 206665 / 9, 183332 / 9,
         159999 / 9, 136666 / 9, 113333 / 9, 10000] := by
  have hr : List.range 10 = [0, 1, 2, 3, 4, 5, 6, 7, 8, 9] := rfl
  norm_num [linspace, hr]

/-- C8: both phase-curve cases use the identical phase grid
`np.linspace(0, 2*pi, 8)` — 8 equally spaced angles (step `2*pi/7`,
represented by the coefficient step `2/7`), first element `0` (secondary
eclipse) and last element `2*pi` (coefficient `2`, primary eclipse) — and
both pass `calculation='reflected'`, `num_gangle=6`, `num_tangle=6`
to `phase_curve_geometry`. -/
theorem C8_phase_grid_and_geometry_args :
    geometry_call_case3d = geometry_call_case3d_clouds
    ∧ phase_grid_case3d = phase_grid_case3d_clouds
    ∧ phase_grid_case3d.length = 8
    ∧ phase_grid_case3d.head? = some 0
    ∧ phase_grid_case3d.getLast? = some 2
    ∧ List.Chain' (fun a b => b - a = 2 / 7) phase_grid_case3d
    ∧ geometry_call_case3d.calculation = "reflected"
    ∧ geometry_call_case3d.num_gangle = 6
    ∧ geometry_call_case3d.num_tangle = 6 := by
  refine ⟨rfl, rfl, ?_, ?_, ?_, ?_, rfl, rfl, rfl⟩
  · rw [phase_grid_case3d_eval]; rfl
  · rw [phase_grid_case3d_eval]; rfl
  · rw [phase_grid_case3d_eval]; rfl
  · rw [phase_grid_case3d_eval]
    simp only [List.chain'_cons, List.chain'_singleton, and_true]
    norm_num

/-- C10: the cloud dataset's `lon`/`lat` coordinates equal the GCM's, its
`pressure` coordinate is the GCM's with the last level dropped (one fewer
level), and its wavenumber coordinate is 10 linearly spaced points from
33333 down to 10000 (constant step `-23333/9`). -/
theorem C10_cloud_grid_from_gcm (gcmLon gcmLat gcmPres : List ℚ)
    (h : gcmPres ≠ []) :
    (ds_cld_coords gcmLon gcmLat gcmPres).lon = gcmLon
    ∧ (ds_cld_coords gcmLon gcmLat gcmPres).lat = gcmLat
    ∧ (ds_cld_coords gcmLon gcmLat gcmPres).pressure = gcmPres.dropLast
    ∧ (ds_cld_coords gcmLon gcmLat gcmPres).pressure.length + 1 = gcmPres.length
    ∧ (ds_cld_coords gcmLon gcmLat gcmPres).wno.length = 10
    ∧ (ds_cld_coords gcmLon gcmLat gcmPres).wno.head? = some 33333
    ∧ (ds_cld_coords gcmLon gcmLat gcmPres).wno.getLast? = some 10000
    ∧ List.Chain' (fun a b => b - a = -(23333 / 9))
        (ds_cld_coords gcmLon gcmLat gcmPres).wno := by
  have hw : (ds_cld_coords gcmLon gcmLat gcmPres).wno
      = [33333, 276664 / 9, 253331 / 9, 229998 / 9, 206665 / 9, 183332 / 9,
         159999 / 9, 136666 / 9, 113333 / 9, 10000] := wno_grid_eval
  refine ⟨rfl, rfl, rfl, ?_, ?_, ?_, ?_, ?_⟩
  · simp [ds_cld_coords, List.length_dropLast,
      Nat.sub_add_cancel (List.length_pos.mpr h)]
  · rw [hw]; rfl
  · rw [hw]; rfl
  · rw [hw]; rfl
  · rw [hw]
    simp only [List.chain'_cons, List.chain'_singleton, and_true]
    norm_num

/-- C10 witness: the theorem instantiated at a concrete three-level grid. -/
theorem C10_cloud_grid_from_gcm_witness :
    ([1, 2, 3] : List ℚ) ≠ []
    ∧ (ds_cld_coords [5] [7] [1, 2, 3]).pressure = [1, 2]
    ∧ (ds_cld_coords [5] [7] [1, 2, 3]).pressure.length + 1 = 3 := by
  have h : ([1, 2, 3] : List ℚ) ≠ [] := by decide
  have hthm := C10_cloud_grid_from_gcm [5] [7] [1, 2, 3] h
  exact ⟨h, by decide, hthm.2.2.2.1⟩

/-- Innermost loop: folding `setOpdSlice` over the pressure indices writes
10 exactly at the slice positions `(ilon, il, ip)` for `ip` in the list. -/
theorem foldl_setOpdSlice_pres (ps : List ℕ) (a : Arr4) (ilon il i j k w : ℕ) :
    (ps.foldl (fun acc3 ip => setOpdSlice acc3 ilon il ip) a) i j k w
      = if i = ilon ∧ j = il ∧ k ∈ ps then 10 else a i j k w := by
  induction ps generalizing a with
  | nil => simp
  | cons p rest ih =>
    rw [List.foldl_cons, ih]
    by_cases hi : i = ilon <;> by_cases hj : j = il <;>
      by_cases hk : k = p <;> simp [setOpdSlice, hi, hj, hk, List.mem_cons]

/-- Middle loop: folding over the longitude indices. -/
theorem foldl_setOpdSlice_lon (ls ps : List ℕ) (a : Arr4) (il i j k w : ℕ) :
    (ls.foldl
        (fun acc2 ilon =>
          ps.foldl (fun acc3 ip => setOpdSlice acc3 ilon il ip) acc2) a) i j k w
      = if i ∈ ls ∧ j = il ∧ k ∈ ps then 10 else a i j k w := by
  induction ls generalizing a with
  | nil => simp
  | cons l rest ih =>
    rw [List.foldl_cons, ih, foldl_setOpdSlice_pres]
    by_cases hi : i = l <;> by_cases hr : i ∈ rest <;> by_cases hj : j = il <;>
      by_cases hk : k ∈ ps <;> simp [hi, hr, hj, hk, List.mem_cons]

/-- Outer loop: folding over the latitude indices. -/
theorem foldl_setOpdSlice_lat (las ls ps : List ℕ) (a : Arr4) (i j k w : ℕ) :
    (las.foldl
        (fun acc il =>
          ls.foldl
            (fun acc2 ilon =>
              ps.foldl (fun acc3 ip => setOpdSlice acc3 ilon il ip) acc2) acc)
        a) i j k w
      = if j ∈ las ∧ i ∈ ls ∧ k ∈ ps then 10 else a i j k w := by
  induction las generalizing a with
  | nil => simp
  | cons l rest ih =>
    rw [List.foldl_cons, ih, foldl_setOpdSlice_lon]
    by_cases hj : j = l <;> by_cases hr : j ∈ rest <;> by_cases hi : i ∈ ls <;>
      by_cases hk : k ∈ ps <;> simp [hj, hr, hi, hk, List.mem_cons]

/-- Membership in an `np.where` index set. -/
theorem mem_whereIdx (p : ℚ → Bool) (xs : List ℚ) (i : ℕ) :
    i ∈ whereIdx p xs ↔ i < xs.length ∧ p (xs.getD i 0) = true := by
  simp [whereIdx, List.mem_filter, List.mem_range]

/-- C2: at every in-range grid point, the synthetic cloud optical depth is
10 when the latitude is strictly between -50 and 50 degrees, the longitude
strictly between -90 and 0 degrees, and the pressure strictly between 1e-5
and 0.01 bar, and 0 otherwise; the asymmetry `g0` is 0.5 and the
single-scattering albedo `w0` is 0.9 everywhere. -/
theorem C2_box_cloud (lon lat pres : List ℚ) (i j k w : ℕ)
    (hi : i < lon.length) (hj : j < lat.length) (hk : k < pres.length) :
    fake_opd lon lat pres i j k w
      = (if (-50 < lat.getD j 0 ∧ lat.getD j 0 < 50)
            ∧ (-90 < lon.getD i 0 ∧ lon.getD i 0 < 0)
            ∧ (1 / 100000 < pres.getD k 0 ∧ pres.getD k 0 < 1 / 100)
         then 10 else 0)
    ∧ fake_asymmetry_g0 lon lat pres i j k w = 1 / 2
    ∧ fake_ssa_w0 lon lat pres i j k w = 9 / 10 := by
  refine ⟨?_, rfl, rfl⟩
  rw [fake_opd, foldl_setOpdSlice_lat]
  simp only [mem_whereIdx, hi, hj, hk, true_and,
    cloudLatBand, cloudLonBand, cloudPresBand,
    Bool.and_eq_true, decide_eq_true_eq]
  by_cases h1 : -50 < lat.getD j 0 ∧ lat.getD j 0 < 50 <;>
    by_cases h2 : -90 < lon.getD i 0 ∧ lon.getD i 0 < 0 <;>
      by_cases h3 : 1 / 100000 < pres.getD k 0 ∧ pres.getD k 0 < 1 / 100 <;>
        simp_all [and_comm]

/-- C2 witness: a one-point grid inside the box gives optical depth 10,
asymmetry 0.5 and albedo 0.9. -/
theorem C2_box_cloud_witness :
    (0 < ([-45] : List ℚ).length ∧ 0 < ([0] : List ℚ).length
      ∧ 0 < ([1 / 1000] : List ℚ).length)
    ∧ fake_opd [-45] [0] [1 / 1000] 0 0 0 0 = 10
    ∧ fake_asymmetry_g0 [-45] [0] [1 / 1000] 0 0 0 0 = 1 / 2
    ∧ fake_ssa_w0 [-45] [0] [1 / 1000] 0 0 0 0 = 9 / 10 := by
  have h := C2_box_cloud [-45] [0] [1 / 1000] 0 0 0 0
    (by simp) (by simp) (by simp)
  refine ⟨⟨by simp, by simp, by simp⟩, ?_, h.2.1, h.2.2⟩
  rw [h.1]
  norm_num

/-- C3: with the random draw in `[0, 1)` at a grid point (numpy's
`random.rand` contract), the synthetic H2O mixing ratio lies in
`[0.1, 0.2)` and H2 is exactly `1 - H2O`, so the two sum to 1 exactly. -/
theorem C3_chem_partition (r : ℕ → ℕ → ℕ → ℚ) (i j k : ℕ)
    (h0 : 0 ≤ r i j k) (h1 : r i j k < 1) :
    1 / 10 ≤ fake_chem_H2O r i j k
    ∧ fake_chem_H2O r i j k < 2 / 10
    ∧ fake_chem_H2 r i j k = 1 - fake_chem_H2O r i j k
    ∧ fake_chem_H2O r i j k + fake_chem_H2 r i j k = 1 := by
  refine ⟨?_, ?_, rfl, ?_⟩
  · unfold fake_chem_H2O
    nlinarith
  · unfold fake_chem_H2O
    nlinarith
  · unfold fake_chem_H2 fake_chem_H2O
    ring

/-- C3 witness: the theorem at the constant draw `1/2`. -/
theorem C3_chem_partition_witness :
    ((0 : ℚ) ≤ 1 / 2 ∧ (1 / 2 : ℚ) < 1)
    ∧ 1 / 10 ≤ fake_chem_H2O (fun _ _ _ => 1 / 2) 0 0 0
    ∧ fake_chem_H2O (fun _ _ _ => 1 / 2) 0 0 0 < 2 / 10
    ∧ fake_chem_H2 (fun _ _ _ => 1 / 2) 0 0 0
        = 1 - fake_chem_H2O (fun _ _ _ => 1 / 2) 0 0 0
    ∧ fake_chem_H2O (fun _ _ _ => 1 / 2) 0 0 0
        + fake_chem_H2 (fun _ _ _ => 1 / 2) 0 0 0 = 1 := by
  have h := C3_chem_partition (fun _ _ _ => 1 / 2) 0 0 0
    (by norm_num) (by norm_num)
  exact ⟨⟨by norm_num, by norm_num⟩, h.1, h.2.1, h.2.2.1, h.2.2.2⟩

/-- `setVar` always leaves the written variable present. -/
theorem hasVar_setVar_self (d : Dataset) (n : String) (v : Arr3) :
    hasVar (setVar d n v) n = true := by
  unfold setVar hasVar
  by_cases h : d.data_vars.any (fun kv => kv.1 == n) = true
  · simp only [h, if_true]
    rcases List.any_eq_true.mp h with ⟨kv, hmem, hkv⟩
    exact List.any_eq_true.mpr
      ⟨(n, v), List.mem_map.mpr ⟨kv, hmem, by simp [hkv]⟩, by simp⟩
  · simp only [h, if_false, Bool.not_eq_true] at *
    simp [h, List.any_append]

/-- `setVar` preserves every variable already present. -/
theorem hasVar_setVar_mono (d : Dataset) (n m : String) (v : Arr3)
    (h : hasVar d m = true) : hasVar (setVar d n v) m = true := by
  unfold setVar hasVar
  rcases List.any_eq_true.mp h with ⟨kv, hmem, hkv⟩
  simp only [beq_iff_eq] at hkv
  by_cases h2 : d.data_vars.any (fun kv => kv.1 == n) = true
  · simp only [h2, if_true]
    by_cases hn : kv.1 == n
    · refine List.any_eq_true.mpr
        ⟨(n, v), List.mem_map.mpr ⟨kv, hmem, by simp [hn]⟩, ?_⟩
      simp only [beq_iff_eq] at hn
      simp [← hkv, ← hn]
    · exact List.any_eq_true.mpr
        ⟨kv, List.mem_map.mpr ⟨kv, hmem, by simp [hn]⟩, by simp [hkv]⟩
  · simp only [h2, if_false]
    exact List.any_eq_true.mpr ⟨kv, List.mem_append_left _ hmem, by simp [hkv]⟩

/-- C9: `all_gcm = gcm_out.update(ds_chem)` leaves `gcm_out` and `all_gcm`
bound to the same chemistry-augmented dataset (xarray's `update` mutates
the receiver in place and returns it), so the cloudy case's
`atmosphere_4d(gcm_out, ...)` receives a dataset equal to the one the
cloud-free case's `atmosphere_4d(all_gcm, ...)` receives, and that dataset
holds the `H2O` and `H2` variables. -/
theorem C9_update_aliases_gcm (gcm : Dataset) (r : ℕ → ℕ → ℕ → ℚ) :
    (chem_cell gcm r).1 = (chem_cell gcm r).2
    ∧ hasVar (chem_cell gcm r).1 "H2O" = true
    ∧ hasVar (chem_cell gcm r).1 "H2" = true := by
  refine ⟨rfl, ?_, ?_⟩
  · show hasVar
      (setVar (setVar gcm "H2O" (fake_chem_H2O r)) "H2" (fake_chem_H2 r))
      "H2O" = true
    exact hasVar_setVar_mono _ _ _ _ (hasVar_setVar_self _ _ _)
  · show hasVar
      (setVar (setVar gcm "H2O" (fake_chem_H2O r)) "H2" (fake_chem_H2 r))
      "H2" = true
    exact hasVar_setVar_self _ _ _

/-- Unrolling the post-processing fold: each key of the dictionary
contributes exactly one regridded spectrum, one scaled flux list and one
legend entry, in key order. -/
theorem foldl_ppStep (regrid : List ℚ → List ℚ → List ℚ × List ℚ)
    (allout : List (ℚ × Spectrum))
    (acc : List (List ℚ) × List (List ℚ) × List ℤ) :
    allout.foldl (ppStep regrid) acc
      = (acc.1 ++ allout.map
           (fun kv => (regrid kv.2.wavenumber kv.2.fpfs_reflected).1),
         acc.2.1 ++ allout.map
           (fun kv => (regrid kv.2.wavenumber kv.2.fpfs_reflected).2.map
             (fun x => x * 1000000)),
         acc.2.2 ++ allout.map (fun kv => pyInt (kv.1 * 180))) := by
  induction allout generalizing acc with
  | nil => simp
  | cons kv rest ih => simp [List.foldl_cons, ppStep, ih]

/-- C4: the phase-curve result is keyed by phase angle — its keys are
exactly the requested phase grid — every value carries a `wavenumber` and
an `fpfs_reflected` array (the fields of `Spectrum`), and the
post-processing loop consumes every key: it emits one regridded spectrum
per key and a legend entry `int(iphase*180/np.pi)` (here `pyInt (iphase *
180)`, phases being coefficients of pi) for each key in order. -/
theorem C4_output_dict_keyed_by_phase (sp : ℚ → Spectrum)
    (regrid : List ℚ → List ℚ → List ℚ × List ℚ) (ps : List ℚ) :
    (phase_curve_output sp ps).map Prod.fst = ps
    ∧ postProcessLoop regrid (phase_curve_output sp ps)
        = ((phase_curve_output sp ps).map
             (fun kv => (regrid kv.2.wavenumber kv.2.fpfs_reflected).1),
           (phase_curve_output sp ps).map
             (fun kv => (regrid kv.2.wavenumber kv.2.fpfs_reflected).2.map
               (fun x => x * 1000000)),
           (phase_curve_output sp ps).map (fun kv => pyInt (kv.1 * 180)))
    ∧ (postProcessLoop regrid (phase_curve_output sp ps)).2.2
        = ps.map (fun iphase => pyInt (iphase * 180))
    ∧ (postProcessLoop regrid (phase_curve_output sp ps)).1.length = ps.length := by
  refine ⟨?_, ?_, ?_, ?_⟩
  · simp only [phase_curve_output, List.map_map]
    exact List.map_id ps
  · simpa using foldl_ppStep regrid (phase_curve_output sp ps) ([], [], [])
  · rw [postProcessLoop, foldl_ppStep]
    simp [phase_curve_output, Function.comp]
  · rw [postProcessLoop, foldl_ppStep]
    simp [phase_curve_output]

/-- C1: within each case's pipeline, the stage numbers of the notebook's
library calls are nondecreasing in source order — no call of a later stage
precedes a call of an earlier stage — and the trace of pipeline calls
starts with the opacity load. -/
theorem C1_calls_in_fixed_order :
    ((notebookTrace.filter (belongsTo Case.cloudFree)).map stageOf).Pairwise
      (fun a b => a ≤ b)
    ∧ ((notebookTrace.filter (belongsTo Case.cloudy)).map stageOf).Pairwise
      (fun a b => a ≤ b)
    ∧ notebookTrace.head? = some Event.opannection := by
  decide

/-- C5: `clouds_4d` is never invoked on the cloud-free case, is invoked
exactly once on the cloudy case, and that invocation comes after
`atmosphere_4d` on the same inputs object. -/
theorem C5_clouds_optional_after_atmosphere :
    notebookTrace.count (Event.clouds4d Case.cloudFree) = 0
    ∧ notebookTrace.count (Event.clouds4d Case.cloudy) = 1
    ∧ Event.atmosphere4d Case.cloudy ∈ notebookTrace
    ∧ notebookTrace.indexOf (Event.atmosphere4d Case.cloudy)
        < notebookTrace.indexOf (Event.clouds4d Case.cloudy) := by
  decide

/-- A try-free program completes exactly when every one of its calls
succeeds: a single failing call aborts the whole run. -/
theorem runOk_eq_all_calls (p : Stmt) (ok : String → Bool)
    (h : hasTry p = false) : runOk ok p = (callsOf p).all ok := by
  induction p with
  | skip => simp [runOk, callsOf]
  | seq a b iha ihb =>
    simp only [hasTry, Bool.or_eq_false_iff] at h
    simp [runOk, callsOf, List.all_append, iha h.1, ihb h.2]
  | call f => simp [runOk, callsOf]
  | forEach b ih =>
    simp only [hasTry] at h
    simp [runOk, callsOf, ih h]
  | tryCatch b hnd ihb ihh => simp [hasTry] at h

/-- C6: the notebook contains no `try/except`, and under the
exception-propagation semantics its run completes exactly when every
library call succeeds — any failing call halts the script, with no catch,
validation, retry or recovery. -/
theorem C6_no_error_handling :
    hasTry notebookProgram = false
    ∧ ∀ ok : String → Bool,
        runOk ok notebookProgram = (callsOf notebookProgram).all ok :=
  ⟨by decide, fun ok => runOk_eq_all_calls notebookProgram ok (by decide)⟩

/-- C7: both `phase_curve` invocations (and there are exactly two, one per
case) pass `n_cpu = 3`, and no call of the notebook is a thread, process,
lock, scheduling or cancellation primitive. -/
theorem C7_concurrency_only_worker_count :
    phase_curve_calls.length = 2
    ∧ phase_curve_calls.all (fun pc => pc.n_cpu == 3) = true
    ∧ notebookTrace.count (Event.phaseCurve Case.cloudFree) = 1
    ∧ notebookTrace.count (Event.phaseCurve Case.cloudy) = 1
    ∧ (callsOf notebookProgram).all
        (fun f => !(concurrency_primitives.contains f)) = true := by
  decide
